import Mathlib

/-!
Verification of the XXMI-Launcher core (`src/xxmi_launcher/app.py`):
a shallow embedding of the `Application` class's update scheduling,
launch sequence, task runner, error channel and shutdown watchdog,
together with theorems about the claims of the specification.
-/

namespace XXMI

/-- Per-package version bookkeeping, as read from
`package_manager.get_version_notification().package_states` values. -/
structure PackageVersionState where
  installed_version : String
  latest_version : String
  skipped_version : String
deriving DecidableEq, Repr

/-- A version snapshot: package name paired with its version state
(`package_states.items()`). -/
def VersionStates := List (String × PackageVersionState)

/-- The per-package predicate of the spec's `update_available`: the
latest version is non-empty, differs from the installed version and
differs from the skipped version. -/
def updatePending (p : PackageVersionState) : Bool :=
  decide (p.latest_version ≠ "") &&
  decide (p.latest_version ≠ p.installed_version) &&
  decide (p.latest_version ≠ p.skipped_version)

/-- Modelled from the spec: `PackageManager.update_available` (the
`core.package_manager` module is not part of the provided sources) —
"true iff any managed package has `latest_version` non-empty and
different from `installed_version`, and not equal to
`skipped_version`". -/
def update_available (pkgs : List (String × PackageVersionState)) : Bool :=
  pkgs.any (fun np => updatePending np.2)

/-- The pending-update message list built by the loop of
`Application.update_scheduled` (app.py lines 330-339): a package is
skipped when `latest_version == skipped_version`, and included when
`installed_version != latest_version` and `latest_version != ''`. -/
def pending_update_message (pkgs : List (String × PackageVersionState)) : List String :=
  pkgs.filterMap (fun np =>
    if np.2.latest_version = np.2.skipped_version then none
    else if np.2.installed_version ≠ np.2.latest_version ∧ np.2.latest_version ≠ "" then
      some (np.1 ++ " update found: " ++ np.2.installed_version ++ " -> " ++ np.2.latest_version)
    else none)

/-- Modelled from the spec: `PackageManager.skip_latest_updates` —
"sets, for every package with a pending update,
`skipped_version = latest_version`". -/
def skip_latest_updates (pkgs : List (String × PackageVersionState)) :
    List (String × PackageVersionState) :=
  pkgs.map (fun np =>
    if updatePending np.2 then
      (np.1, { np.2 with skipped_version := np.2.latest_version })
    else np)

/-- `Application.update_scheduled` (app.py lines 326-361).
`dialogResult` is the value returned by `gui.show_messagebox` for the
update dialogue: `none` models the `None` from the Close button,
`some false` the falsy Skip answer, `some true` the Update answer.
Returns the boolean result together with the (possibly updated)
version states. -/
def update_scheduled (pkgs : List (String × PackageVersionState))
    (dialogResult : Option Bool) : Bool × List (String × PackageVersionState) :=
  if update_available pkgs = false then (false, pkgs)
  else
    if (pending_update_message pkgs).length = 0 then (false, pkgs)
    else
      match dialogResult with
      | none => (false, pkgs)
      | some false => (false, skip_latest_updates pkgs)
      | some true => (true, pkgs)

/-- The message built for a pending package in `update_scheduled`. -/
def pendingMessage (np : String × PackageVersionState) : String :=
  np.1 ++ " update found: " ++ np.2.installed_version ++ " -> " ++ np.2.latest_version

theorem pending_update_message_eq_filter (pkgs : List (String × PackageVersionState)) :
    pending_update_message pkgs =
      (pkgs.filter (fun np => updatePending np.2)).map pendingMessage := by
  induction pkgs with
  | nil => rfl
  | cons hd tl ih =>
    have step : pending_update_message (hd :: tl) =
        (if updatePending hd.2 then [pendingMessage hd] else [])
          ++ pending_update_message tl := by
      by_cases h1 : hd.2.latest_version = hd.2.skipped_version
      · have hp : updatePending hd.2 = false := by simp [updatePending, h1]
        simp [pending_update_message, h1, hp]
      · by_cases h2 : hd.2.installed_version ≠ hd.2.latest_version ∧ hd.2.latest_version ≠ ""
        · have hp : updatePending hd.2 = true := by
            simp [updatePending, h1, Ne.symm h2.1, h2.2]
          simp [pending_update_message, h1, h2, hp, pendingMessage]
        · have hp : updatePending hd.2 = false := by
            rcases not_and_or.mp h2 with h | h
            · simp [updatePending, (not_not.mp h).symm]
            · simp [updatePending, not_not.mp h]
          simp [pending_update_message, h1, h2, hp]
    rw [step, ih]
    by_cases hp : updatePending hd.2 <;> simp [hp]

theorem update_available_eq_false_iff_pending_nil
    (pkgs : List (String × PackageVersionState)) :
    update_available pkgs = false ↔ pending_update_message pkgs = [] := by
  rw [pending_update_message_eq_filter]
  simp [update_available, List.map_eq_nil_iff, List.filter_eq_nil_iff]

/-- C1: `update_available()` is true iff some managed package has
`latest_version` non-empty, different from `installed_version` and
different from `skipped_version`; it is false exactly when the
pending-update list built by `update_scheduled` (filtered by the same
per-package predicate) is empty, and `update_scheduled` returns false
whenever that list is empty. -/
theorem update_available_iff_exists_pending
    (pkgs : List (String × PackageVersionState)) :
    (update_available pkgs = true ↔
      ∃ np ∈ pkgs, np.2.latest_version ≠ "" ∧
        np.2.latest_version ≠ np.2.installed_version ∧
        np.2.latest_version ≠ np.2.skipped_version)
    ∧ (update_available pkgs = false ↔ pending_update_message pkgs = [])
    ∧ (∀ r, pending_update_message pkgs = [] →
        (update_scheduled pkgs r).1 = false) := by
  refine ⟨?_, update_available_eq_false_iff_pending_nil pkgs, ?_⟩
  · simp [update_available, List.any_eq_true, updatePending, and_assoc]
  · intro r hnil
    have hav : update_available pkgs = false :=
      (update_available_eq_false_iff_pending_nil pkgs).mpr hnil
    simp [update_scheduled, hav]

/-- A concrete snapshot whose only package has its latest version
skipped, so no update is pending. -/
def c1pkgs : List (String × PackageVersionState) :=
  [("Launcher", ⟨"1.2", "1.3", "1.3"⟩)]

theorem update_available_iff_exists_pending_witness :
    (update_scheduled c1pkgs (some true)).1 = false :=
  (update_available_iff_exists_pending c1pkgs).2.2 (some true) (by decide)

/-- C9: when the update dialogue is reached, a `None` result (Close
button) makes `update_scheduled` return false leaving every package's
`skipped_version` unchanged; a falsy non-`None` result (Skip) marks
the pending versions skipped and returns false; a truthy result
(Update) returns true without marking anything skipped. -/
theorem update_scheduled_dialog_cases
    (pkgs : List (String × PackageVersionState))
    (hav : update_available pkgs = true) :
    update_scheduled pkgs none = (false, pkgs)
    ∧ update_scheduled pkgs (some false) = (false, skip_latest_updates pkgs)
    ∧ update_scheduled pkgs (some true) = (true, pkgs) := by
  have hpend : pending_update_message pkgs ≠ [] := by
    intro h
    rw [(update_available_eq_false_iff_pending_nil pkgs).mpr h] at hav
    exact Bool.false_ne_true hav
  have hlen : ¬ (pending_update_message pkgs).length = 0 := by
    simpa [List.length_eq_zero] using hpend
  refine ⟨?_, ?_, ?_⟩ <;> simp [update_scheduled, hav, hlen]

/-- A concrete snapshot with one pending update. -/
def c9pkgs : List (String × PackageVersionState) :=
  [("Launcher", ⟨"1.2", "1.3", ""⟩)]

theorem update_scheduled_dialog_cases_witness :
    update_scheduled c9pkgs none = (false, c9pkgs) :=
  (update_scheduled_dialog_cases c9pkgs (by decide)).1

/-! ### Shutdown watchdog (`Application.watchdog`, app.py 487-496) -/

/-- One iteration of the watchdog polling loop: the values observed
after `time.sleep(0.1)` — the `is_alive` flag and `time.time()`. -/
structure WdSample where
  alive : Bool
  now : Nat
deriving DecidableEq, Repr

/-- How a (finite prefix of a) watchdog run ends. -/
inductive WdOutcome where
  | returned
  | terminated
  | running
deriving DecidableEq, Repr

/-- The polling loop of `Application.watchdog`: each iteration sleeps,
returns if `is_alive` is false, and breaks out to the forced
`os._exit` when the current time exceeds the deadline. -/
def watchdog_loop (deadline : Nat) : List WdSample → WdOutcome
  | [] => .running
  | s :: rest =>
    if s.alive = false then .returned
    else if deadline < s.now then .terminated
    else watchdog_loop deadline rest

/-- `Application.watchdog(timeout)`: the deadline is the start time
plus the grace period (`timeout = time.time() + timeout`). -/
def watchdog (start grace : Nat) (samples : List WdSample) : WdOutcome :=
  watchdog_loop (start + grace) samples

/-- The grace period passed to the watchdog by `Application.exit`
(`Thread(target=self.watchdog, kwargs={'timeout': 5})`). -/
def exit_watchdog_grace : Nat := 5

theorem watchdog_loop_terminated_mem (deadline : Nat) :
    ∀ samples : List WdSample,
      watchdog_loop deadline samples = WdOutcome.terminated →
      ∃ s ∈ samples, s.alive = true ∧ deadline < s.now := by
  intro samples
  induction samples with
  | nil => intro h; simp [watchdog_loop] at h
  | cons s rest ih =>
    intro h
    by_cases ha : s.alive = false
    · simp [watchdog_loop, ha] at h
    · have ha' : s.alive = true := Bool.not_eq_false s.alive ▸ ha
      by_cases ht : deadline < s.now
      · exact ⟨s, List.mem_cons_self s rest, ha', ht⟩
      · rw [watchdog_loop, if_neg ha, if_neg ht] at h
        obtain ⟨x, hx, hxp⟩ := ih h
        exact ⟨x, List.mem_cons_of_mem s hx, hxp⟩

theorem watchdog_loop_forces (deadline : Nat) :
    ∀ samples : List WdSample,
      (∀ s ∈ samples, s.alive = true) →
      (∃ s ∈ samples, deadline < s.now) →
      watchdog_loop deadline samples = WdOutcome.terminated := by
  intro samples
  induction samples with
  | nil => intro _ hex; simp at hex
  | cons s rest ih =>
    intro hall hex
    have ha : s.alive = true := hall s (List.mem_cons_self s rest)
    by_cases ht : deadline < s.now
    · simp [watchdog_loop, ha, ht]
    · obtain ⟨x, hx, hxt⟩ := hex
      rcases List.mem_cons.mp hx with rfl | hx'
      · exact absurd hxt ht
      · have hrest := ih (fun y hy => hall y (List.mem_cons_of_mem s hy)) ⟨x, hx', hxt⟩
        simpa [watchdog_loop, ha, ht] using hrest

/-- C2: the watchdog started by `exit()` force-terminates the process
only when the grace deadline has passed while `is_alive` is still
true — never before the deadline — and whenever the flag never drops
(a hung background thread) and the polled clock passes the deadline,
the forced termination does occur. -/
theorem watchdog_spec (start : Nat) (samples : List WdSample) :
    (watchdog start exit_watchdog_grace samples = WdOutcome.terminated →
      ∃ s ∈ samples, s.alive = true ∧ start + exit_watchdog_grace < s.now)
    ∧ ((∀ s ∈ samples, s.alive = true) →
       (∃ s ∈ samples, start + exit_watchdog_grace < s.now) →
       watchdog start exit_watchdog_grace samples = WdOutcome.terminated) :=
  ⟨watchdog_loop_terminated_mem (start + exit_watchdog_grace) samples,
   watchdog_loop_forces (start + exit_watchdog_grace) samples⟩

theorem watchdog_spec_witness :
    watchdog 0 exit_watchdog_grace
      [WdSample.mk true 3, WdSample.mk true 6] = WdOutcome.terminated :=
  (watchdog_spec 0 [WdSample.mk true 3, WdSample.mk true 6]).2
    (by decide) ⟨WdSample.mk true 6, by decide, by decide⟩

/-! ### Task runner and error channel
(`Application.wrap_errors` / `run_as_thread` / `check_threads` /
`report_thread_error`, app.py 440-485) -/

/-- A background execution unit: the outcome the callback will produce
when the thread runs (`Except.error` models a raised exception), with
the traceback formatted at failure time. -/
structure ThreadUnit where
  outcome : Except String Unit
  trace : String

/-- The task-runner state: the in-flight list `self.threads` and the
error channel `self.error_queue` (a FIFO of (error, trace) pairs). -/
structure TaskState where
  threads : List ThreadUnit
  error_queue : List (String × String)

/-- `Application.wrap_errors` (app.py 440-444): run the callback; any
exception is caught and pushed with its trace onto the error queue via
`put_nowait`. The first component is the wrapper's own outcome, which
is always `ok`: the wrapper never lets an exception escape. -/
def wrap_errors (outcome : Except String Unit) (trace : String)
    (queue : List (String × String)) :
    Except String Unit × List (String × String) :=
  match outcome with
  | .ok _ => (.ok (), queue)
  | .error e => (.ok (), queue ++ [(e, trace)])

/-- What a `run_as_thread` call produces for its caller: a synchronous
return value (or propagated exception), or a spawned thread. -/
inductive RunResult where
  | sync : Except String Unit → RunResult
  | spawned : RunResult

/-- `Application.run_as_thread` (app.py 446-460): the `no_thread`
kwarg (`none` when absent); when truthy the callback runs directly and
its value (or exception) goes to the caller; otherwise a thread
wrapping the callback with `wrap_errors` is appended to `self.threads`
and started. -/
def run_as_thread (st : TaskState) (no_thread : Option Bool)
    (callback : Except String Unit) (trace : String) :
    RunResult × TaskState :=
  let nt := match no_thread with
    | some b => b
    | none => false
  if nt then (.sync callback, st)
  else (.spawned, { st with threads := st.threads ++ [⟨callback, trace⟩] })

/-- Executing a spawned unit: its body is `wrap_errors`, so a failure
lands on the error queue and the thread itself finishes cleanly. -/
def run_thread_unit (st : TaskState) (u : ThreadUnit) :
    Except String Unit × TaskState :=
  ((wrap_errors u.outcome u.trace st.error_queue).1,
   { st with error_queue := (wrap_errors u.outcome u.trace st.error_queue).2 })

/-- C3: `run_as_thread` with `no_thread=true` executes the callback
synchronously, returning its value with exceptions propagating and no
state change; with `no_thread` absent or false it registers one new
background unit wrapping the callback, and running that unit pushes
any exception as an (error, trace) pair onto the error queue while the
unit itself never propagates the exception. -/
theorem run_as_thread_spec (st : TaskState) (no_thread : Option Bool)
    (cb : Except String Unit) (tr : String) :
    (no_thread = some true →
      run_as_thread st no_thread cb tr = (RunResult.sync cb, st))
    ∧ (no_thread = none ∨ no_thread = some false →
      (run_as_thread st no_thread cb tr).1 = RunResult.spawned
      ∧ (run_as_thread st no_thread cb tr).2.threads =
          st.threads ++ [⟨cb, tr⟩]
      ∧ (run_as_thread st no_thread cb tr).2.error_queue = st.error_queue)
    ∧ (∀ e, cb = Except.error e →
        run_thread_unit st ⟨cb, tr⟩ =
          (Except.ok (), { st with error_queue := st.error_queue ++ [(e, tr)] }))
    ∧ (run_thread_unit st ⟨cb, tr⟩).1 = Except.ok () := by
  refine ⟨?_, ?_, ?_, ?_⟩
  · rintro rfl
    simp [run_as_thread]
  · rintro (rfl | rfl) <;> simp [run_as_thread]
  · rintro e rfl
    simp [run_thread_unit, wrap_errors]
  · cases cb <;> simp [run_thread_unit, wrap_errors]

theorem run_as_thread_spec_witness :
    run_as_thread ⟨[], []⟩ (some true) (Except.error "boom") "trace" =
      (RunResult.sync (Except.error "boom"), ⟨[], []⟩) :=
  (run_as_thread_spec ⟨[], []⟩ (some true) (Except.error "boom") "trace").1 rfl

/-- Result of one `check_threads` tick. -/
structure CheckThreadsOut where
  threads_alive : List Bool
  error_queue : List (String × String)
  surfaced : List (String × String)
  rescheduled : Bool

/-- `Application.report_thread_error` (app.py 475-485): pops one
(error, trace) pair via `get_nowait` — `none` models the `Empty`
exception on an empty queue — and surfaces it as a modal error box. -/
def report_thread_error (queue : List (String × String)) :
    Option ((String × String) × List (String × String)) :=
  match queue with
  | [] => none
  | e :: rest => some (e, rest)

/-- `Application.check_threads` (app.py 462-473) over one tick:
reschedules itself, prunes finished threads (keeping those whose
`is_alive()` is true), then — only when the gui state is `'normal'` —
surfaces at most one queued error (the `Empty` exception is caught). -/
def check_threads (threads : List Bool) (queue : List (String × String))
    (guiState : String) : CheckThreadsOut :=
  let pruned := threads.filter (fun a => a)
  if guiState ≠ "normal" then
    ⟨pruned, queue, [], true⟩
  else
    match report_thread_error queue with
    | none => ⟨pruned, queue, [], true⟩
    | some (e, rest) => ⟨pruned, rest, [e], true⟩

/-- C7: every `check_threads` tick removes all finished threads from
the in-flight list and reschedules itself; when the control surface is
not in the `'normal'` state no error is surfaced that tick; otherwise
exactly the first queued error (at most one, never two) is dequeued
and surfaced. -/
theorem check_threads_spec (threads : List Bool)
    (queue : List (String × String)) (guiState : String) :
    (check_threads threads queue guiState).threads_alive =
        threads.filter (fun a => a)
    ∧ (check_threads threads queue guiState).rescheduled = true
    ∧ (guiState ≠ "normal" →
        (check_threads threads queue guiState).surfaced = []
        ∧ (check_threads threads queue guiState).error_queue = queue)
    ∧ (check_threads threads queue guiState).surfaced.length ≤ 1
    ∧ (guiState = "normal" →
        (check_threads threads queue guiState).surfaced = queue.take 1
        ∧ (check_threads threads queue guiState).error_queue = queue.drop 1) := by
  by_cases hg : guiState = "normal"
  · cases queue <;>
      simp [check_threads, report_thread_error, hg]
  · simp [check_threads, report_thread_error, hg]

theorem check_threads_spec_witness :
    (check_threads [true, false] [("e1", "t1"), ("e2", "t2")] "normal").surfaced =
        [("e1", "t1")]
    ∧ (check_threads [true, false] [("e1", "t1"), ("e2", "t2")] "normal").error_queue =
        [("e2", "t2")] :=
  (check_threads_spec [true, false] [("e1", "t1"), ("e2", "t2")] "normal").2.2.2.2 rfl

/-! ### Launch sequence (`Application.launch`, app.py 380-414) -/

/-- Per-importer launch settings (`Config.Active.Importer`). -/
structure ImporterSettings where
  run_pre_launch_enabled : Bool
  run_pre_launch : String
  run_pre_launch_wait : Bool
  run_post_load_enabled : Bool
  run_post_load : String
  run_post_load_wait : Bool
deriving DecidableEq, Repr

/-- Launcher-wide settings used by `launch` (`Config.Launcher`). -/
structure LauncherSettings where
  active_importer : String
  auto_close : Bool
deriving DecidableEq, Repr

/-- Observable actions of the launch sequence, in emission order:
event-bus fires, process spawns and waits, and the scheduled
follow-ups of the cleanup. -/
inductive LaunchEvent where
  | busy
  | runPreLaunch
  | popenPre
  | waitPre
  | startGame
  | runPostLoad
  | popenPost
  | waitPost
  | scheduleReady
  | fireClose (delay : Nat)
deriving DecidableEq, Repr

deriving instance DecidableEq for Except

/-- Outcomes of the fallible operations of one launch run: the
pre-launch `Popen` and `wait`, the handlers of
`Events.ModelImporter.StartGame`, and the post-load `Popen` and
`wait`. `Except.error` models a raised exception. -/
structure LaunchRunResults where
  preSpawn : Except String Unit
  preWait : Except String Unit
  startGame : Except String Unit
  postSpawn : Except String Unit
  postWait : Except String Unit

/-- What a `launch` call leaves behind: the `launching_game` flag, the
emitted action trace, and its own outcome (`Except.error` models the
exception re-raised out of `launch`). -/
structure LaunchOutcome where
  launching_game : Bool
  events : List LaunchEvent
  result : Except String Unit

/-- One shell-hook step: fire the bus notification, spawn the shell
command, and — when the wait flag is set — block until it exits (the
wait event marks the process having exited). -/
def runHook (fireEv popenEv waitEv : LaunchEvent) (waitFlag : Bool)
    (spawn waitRes : Except String Unit) :
    List LaunchEvent × Except String Unit :=
  match spawn with
  | .error e => ([fireEv], .error e)
  | .ok _ =>
    if waitFlag then
      match waitRes with
      | .error e => ([fireEv, popenEv], .error e)
      | .ok _ => ([fireEv, popenEv, waitEv], .ok ())
    else ([fireEv, popenEv], .ok ())

/-- Step 1 of the try-block (app.py 388-393): the pre-launch hook,
run only when enabled and the command string is non-empty. -/
def launch_step1 (ic : ImporterSettings) (rr : LaunchRunResults) :
    List LaunchEvent × Except String Unit :=
  if ic.run_pre_launch_enabled = true ∧ ic.run_pre_launch ≠ "" then
    runHook .runPreLaunch .popenPre .waitPre ic.run_pre_launch_wait
      rr.preSpawn rr.preWait
  else ([], .ok ())

/-- Step 3 of the try-block (app.py 398-403): the post-load hook, run
only when enabled and the command string is non-empty. -/
def launch_step3 (ic : ImporterSettings) (rr : LaunchRunResults) :
    List LaunchEvent × Except String Unit :=
  if ic.run_post_load_enabled = true ∧ ic.run_post_load ≠ "" then
    runHook .runPostLoad .popenPost .waitPost ic.run_post_load_wait
      rr.postSpawn rr.postWait
  else ([], .ok ())

/-- The try-block of `Application.launch` (app.py 387-403): step 1,
then the StartGame signal (step 2), then step 3; an exception aborts
the remaining steps. -/
def launch_try (ic : ImporterSettings) (rr : LaunchRunResults) :
    List LaunchEvent × Except String Unit :=
  match (launch_step1 ic rr).2 with
  | .error e => ((launch_step1 ic rr).1, .error e)
  | .ok _ =>
    match rr.startGame with
    | .error e => ((launch_step1 ic rr).1 ++ [.startGame], .error e)
    | .ok _ =>
      ((launch_step1 ic rr).1 ++ [.startGame] ++ (launch_step3 ic rr).1,
       (launch_step3 ic rr).2)

/-- `Application.launch` (app.py 380-414): the re-entrance guard, the
Busy notification, the try-block, the except-clause wrapping the
exception with the active importer's name, the finally-clause clearing
the flag and scheduling Ready when auto-close is off, and — reached
only when no exception escaped — the delayed Close when auto-close is
on. -/
def launch (launching_game : Bool) (lc : LauncherSettings)
    (ic : ImporterSettings) (rr : LaunchRunResults) : LaunchOutcome :=
  if launching_game then ⟨launching_game, [], .ok ()⟩
  else
    match (launch_try ic rr).2 with
    | .error e =>
      ⟨false,
       (LaunchEvent.busy :: (launch_try ic rr).1) ++
         (if lc.auto_close then [] else [.scheduleReady]),
       .error (lc.active_importer ++ " Loading Failed:\n" ++ e)⟩
    | .ok _ =>
      ⟨false,
       (LaunchEvent.busy :: (launch_try ic rr).1) ++
         (if lc.auto_close then [] else [.scheduleReady]) ++
         (if lc.auto_close then [LaunchEvent.fireClose 1000] else []),
       .ok ()⟩

/-- C4: a `launch` call while the launching flag is already set is a
silent no-op: it raises nothing, emits nothing and changes nothing. -/
theorem launch_reentrant_noop (lc : LauncherSettings)
    (ic : ImporterSettings) (rr : LaunchRunResults) :
    (launch true lc ic rr).launching_game = true
    ∧ (launch true lc ic rr).events = []
    ∧ (launch true lc ic rr).result = Except.ok () := by
  refine ⟨rfl, rfl, rfl⟩

theorem runHook_events_mem (f p w : LaunchEvent) (flag : Bool)
    (s r : Except String Unit) :
    ∀ ev ∈ (runHook f p w flag s r).1, ev = f ∨ ev = p ∨ ev = w := by
  rcases s with e | ⟨⟩ <;> rcases r with e' | ⟨⟩ <;> rcases flag <;>
    simp [runHook]

theorem launch_step1_events_mem (ic : ImporterSettings) (rr : LaunchRunResults) :
    ∀ ev ∈ (launch_step1 ic rr).1,
      ev = LaunchEvent.runPreLaunch ∨ ev = LaunchEvent.popenPre ∨
      ev = LaunchEvent.waitPre := by
  intro ev h
  unfold launch_step1 at h
  split at h
  · exact runHook_events_mem _ _ _ _ _ _ ev h
  · cases h

theorem launch_step3_events_mem (ic : ImporterSettings) (rr : LaunchRunResults) :
    ∀ ev ∈ (launch_step3 ic rr).1,
      ev = LaunchEvent.runPostLoad ∨ ev = LaunchEvent.popenPost ∨
      ev = LaunchEvent.waitPost := by
  intro ev h
  unfold launch_step3 at h
  split at h
  · exact runHook_events_mem _ _ _ _ _ _ ev h
  · cases h

theorem launch_try_events_mem (ic : ImporterSettings) (rr : LaunchRunResults) :
    ∀ ev ∈ (launch_try ic rr).1,
      ev = LaunchEvent.runPreLaunch ∨ ev = LaunchEvent.popenPre ∨
      ev = LaunchEvent.waitPre ∨ ev = LaunchEvent.startGame ∨
      ev = LaunchEvent.runPostLoad ∨ ev = LaunchEvent.popenPost ∨
      ev = LaunchEvent.waitPost := by
  intro ev h
  unfold launch_try at h
  split at h
  · rcases launch_step1_events_mem ic rr ev h with h1 | h1 | h1 <;> tauto
  · split at h
    · rcases List.mem_append.mp h with h1 | h1
      · rcases launch_step1_events_mem ic rr ev h1 with h2 | h2 | h2 <;> tauto
      · rcases List.mem_singleton.mp h1 with rfl; tauto
    · rcases List.mem_append.mp h with h1 | h1
      · rcases List.mem_append.mp h1 with h2 | h2
        · rcases launch_step1_events_mem ic rr ev h2 with h3 | h3 | h3 <;> tauto
        · rcases List.mem_singleton.mp h2 with rfl; tauto
      · rcases launch_step3_events_mem ic rr ev h1 with h2 | h2 | h2 <;> tauto

theorem scheduleReady_notin_launch_try (ic : ImporterSettings)
    (rr : LaunchRunResults) :
    LaunchEvent.scheduleReady ∉ (launch_try ic rr).1 := by
  intro hmem
  rcases launch_try_events_mem ic rr _ hmem with h | h | h | h | h | h | h <;> cases h

theorem fireClose_notin_launch_try (ic : ImporterSettings)
    (rr : LaunchRunResults) (d : Nat) :
    LaunchEvent.fireClose d ∉ (launch_try ic rr).1 := by
  intro hmem
  rcases launch_try_events_mem ic rr _ hmem with h | h | h | h | h | h | h <;> cases h

/-- C6 counterexample: with auto-close configured and an exception in
step 2, the cleanup clears the flag but schedules neither the delayed
close nor the ready notification, so the claimed either/or cleanup
does not happen on this input. -/
theorem launch_cleanup_counterexample :
    (LauncherSettings.mk "WWMI" true).auto_close = true
    ∧ (launch false (LauncherSettings.mk "WWMI" true)
        (ImporterSettings.mk false "" false false "" false)
        (LaunchRunResults.mk (.ok ()) (.ok ()) (.error "boom") (.ok ()) (.ok ()))).events
        = [LaunchEvent.busy, LaunchEvent.startGame]
    ∧ (launch false (LauncherSettings.mk "WWMI" true)
        (ImporterSettings.mk false "" false false "" false)
        (LaunchRunResults.mk (.ok ()) (.ok ()) (.error "boom") (.ok ()) (.ok ()))).result
        = Except.error "WWMI Loading Failed:\nboom"
    ∧ (launch false (LauncherSettings.mk "WWMI" true)
        (ImporterSettings.mk false "" false false "" false)
        (LaunchRunResults.mk (.ok ()) (.ok ()) (.error "boom") (.ok ()) (.ok ()))).launching_game
        = false
    ∧ LaunchEvent.scheduleReady ∉
        (launch false (LauncherSettings.mk "WWMI" true)
          (ImporterSettings.mk false "" false false "" false)
          (LaunchRunResults.mk (.ok ()) (.ok ()) (.error "boom") (.ok ()) (.ok ()))).events
    ∧ LaunchEvent.fireClose 1000 ∉
        (launch false (LauncherSettings.mk "WWMI" true)
          (ImporterSettings.mk false "" false false "" false)
          (LaunchRunResults.mk (.ok ()) (.ok ()) (.error "boom") (.ok ()) (.ok ()))).events := by
  refine ⟨rfl, by decide, by decide, by decide, by decide, by decide⟩

/-- C6 (amended): every exception from steps 1-3 is re-raised wrapped
with the active importer's name, and the launching flag is always
cleared; but the rest of the cleanup is asymmetric: the ready
notification is scheduled iff auto-close is off (success or failure),
while the delayed close is fired iff auto-close is on and the launch
sequence raised no exception. -/
theorem launch_cleanup_spec (lc : LauncherSettings) (ic : ImporterSettings)
    (rr : LaunchRunResults) :
    (launch false lc ic rr).launching_game = false
    ∧ ((launch false lc ic rr).result = Except.ok ()
        ∨ ∃ s, (launch false lc ic rr).result =
            Except.error (lc.active_importer ++ " Loading Failed:\n" ++ s))
    ∧ (LaunchEvent.scheduleReady ∈ (launch false lc ic rr).events ↔
        lc.auto_close = false)
    ∧ (LaunchEvent.fireClose 1000 ∈ (launch false lc ic rr).events ↔
        lc.auto_close = true ∧ (launch false lc ic rr).result = Except.ok ()) := by
  refine ⟨?_, ?_, ?_, ?_⟩
  · cases hres : (launch_try ic rr).2 <;> simp [launch, hres]
  · cases hres : (launch_try ic rr).2 with
    | error e => exact Or.inr ⟨e, by simp [launch, hres]⟩
    | ok u => exact Or.inl (by simp [launch, hres])
  · cases hres : (launch_try ic rr).2 <;>
      by_cases hac : lc.auto_close = true <;>
      simp [launch, hres, hac, scheduleReady_notin_launch_try]
  · cases hres : (launch_try ic rr).2 <;>
      by_cases hac : lc.auto_close = true <;>
      simp [launch, hres, hac, fireClose_notin_launch_try]

set_option maxHeartbeats 3200000 in
/-- C5: when the pre-launch command is configured, enabled and marked
wait-for-completion, the StartGame signal (step 2) is never emitted
before the pre-launch process has exited (the wait of step 1), and the
post-load hook's process is only ever spawned after step 2. -/
theorem launch_start_after_pre_wait (lc : LauncherSettings)
    (ic : ImporterSettings) (rr : LaunchRunResults)
    (h1 : ic.run_pre_launch_enabled = true)
    (h2 : ic.run_pre_launch ≠ "")
    (h3 : ic.run_pre_launch_wait = true) :
    (LaunchEvent.startGame ∈ (launch false lc ic rr).events →
      (launch false lc ic rr).events.indexOf LaunchEvent.waitPre <
        (launch false lc ic rr).events.indexOf LaunchEvent.startGame)
    ∧ (LaunchEvent.popenPost ∈ (launch false lc ic rr).events →
      (launch false lc ic rr).events.indexOf LaunchEvent.startGame <
        (launch false lc ic rr).events.indexOf LaunchEvent.popenPost) := by
  obtain ⟨ps, pw, sg, qs, qw⟩ := rr
  rcases ps with pe | ⟨⟩ <;> rcases pw with we | ⟨⟩ <;> rcases sg with se | ⟨⟩ <;>
  rcases qs with qe | ⟨⟩ <;> rcases qw with qwe | ⟨⟩ <;>
  by_cases hpost : ic.run_post_load_enabled = true ∧ ic.run_post_load ≠ "" <;>
  by_cases hqw : ic.run_post_load_wait = true <;>
  by_cases hac : lc.auto_close = true <;>
  simp [launch, launch_try, launch_step1, launch_step3, runHook,
    h1, h2, h3, hpost, hqw, hac, List.indexOf] <;>
  decide

theorem launch_start_after_pre_wait_witness :
    (launch false (LauncherSettings.mk "GIMI" false)
        (ImporterSettings.mk true "pre.bat" true true "post.bat" false)
        (LaunchRunResults.mk (.ok ()) (.ok ()) (.ok ()) (.ok ()) (.ok ()))).events.indexOf
        LaunchEvent.waitPre <
      (launch false (LauncherSettings.mk "GIMI" false)
        (ImporterSettings.mk true "pre.bat" true true "post.bat" false)
        (LaunchRunResults.mk (.ok ()) (.ok ()) (.ok ()) (.ok ()) (.ok ()))).events.indexOf
        LaunchEvent.startGame :=
  (launch_start_after_pre_wait (LauncherSettings.mk "GIMI" false)
    (ImporterSettings.mk true "pre.bat" true true "post.bat" false)
    (LaunchRunResults.mk (.ok ()) (.ok ()) (.ok ()) (.ok ()) (.ok ()))
    rfl (by decide) rfl).1 (by decide)

/-! ### Default importer inference
(`Application.get_default_xxmi`, app.py 273-287) -/

/-- Char-list version of a prefix test. -/
def startsOn : List Char → List Char → Bool
  | [], _ => true
  | _ :: _, [] => false
  | a :: as, b :: bs => (a == b) && startsOn as bs

/-- Substring occurrence over char lists: the needle starts at some
position of the haystack. `re.findall` on the pattern `.*(XX).*` over
a string finds a match exactly when `XX` occurs in it. -/
def occursIn (needle : List Char) : List Char → Bool
  | [] => startsOn needle []
  | c :: rest => startsOn needle (c :: rest) || occursIn needle rest

/-- `msi.upper()` as a char list. -/
def upperChars (s : String) : List Char := s.toList.map Char.toUpper

/-- Truthiness of an optional string argument (`None` and the empty
string are falsy). -/
def truthyArg : Option String → Bool
  | none => false
  | some s => decide (s ≠ "")

/-- `Application.get_default_xxmi` (app.py 273-287): the explicit
`--xxmi` argument wins; otherwise, with no `--msi` argument there is
no default; otherwise the patterns `.*(WW).*`, `.*(ZZ).*`, `.*(SR).*`,
`.*(GI).*` are tried in that order against `msi.upper()` and the first
that matches decides the importer. -/
def get_default_xxmi (xxmi msi : Option String) : Option String :=
  if truthyArg xxmi then xxmi
  else if truthyArg msi = false then none
  else
    if occursIn ['W', 'W'] (upperChars (msi.getD "")) then some "WWMI"
    else if occursIn ['Z', 'Z'] (upperChars (msi.getD "")) then some "ZZMI"
    else if occursIn ['S', 'R'] (upperChars (msi.getD "")) then some "SRMI"
    else if occursIn ['G', 'I'] (upperChars (msi.getD "")) then some "GIMI"
    else none

/-- C8: with no explicit importer argument, `get_default_xxmi` infers
the default importer from the installer-bundle file name by
case-insensitive substring matching in the fixed order WW→WWMI,
ZZ→ZZMI, SR→SRMI, GI→GIMI, the first matching pattern winning, and
yields no importer when none of the four substrings occurs. -/
theorem get_default_xxmi_spec (m : String) (hm : m ≠ "") :
    (occursIn ['W', 'W'] (upperChars m) = true →
      get_default_xxmi none (some m) = some "WWMI")
    ∧ (occursIn ['W', 'W'] (upperChars m) = false →
       occursIn ['Z', 'Z'] (upperChars m) = true →
      get_default_xxmi none (some m) = some "ZZMI")
    ∧ (occursIn ['W', 'W'] (upperChars m) = false →
       occursIn ['Z', 'Z'] (upperChars m) = false →
       occursIn ['S', 'R'] (upperChars m) = true →
      get_default_xxmi none (some m) = some "SRMI")
    ∧ (occursIn ['W', 'W'] (upperChars m) = false →
       occursIn ['Z', 'Z'] (upperChars m) = false →
       occursIn ['S', 'R'] (upperChars m) = false →
       occursIn ['G', 'I'] (upperChars m) = true →
      get_default_xxmi none (some m) = some "GIMI")
    ∧ (occursIn ['W', 'W'] (upperChars m) = false →
       occursIn ['Z', 'Z'] (upperChars m) = false →
       occursIn ['S', 'R'] (upperChars m) = false →
       occursIn ['G', 'I'] (upperChars m) = false →
      get_default_xxmi none (some m) = none) := by
  have ht : truthyArg (some m) = true := by simp [truthyArg, hm]
  refine ⟨?_, ?_, ?_, ?_, ?_⟩ <;> intros <;>
    simp [get_default_xxmi, truthyArg, ht, *]

theorem get_default_xxmi_spec_witness :
    get_default_xxmi none (some "XXMI-Launcher-srmi-setup.msi") = some "SRMI" :=
  (get_default_xxmi_spec "XXMI-Launcher-srmi-setup.msi" (by decide)).2.2.1
    (by decide) (by decide) (by decide)

/-! ### Automatic update installation
(`Application.auto_update`, app.py 289-310) -/

/-- What one `auto_update` run decides: whether the installing
`update_packages(no_check=True, ...)` call was reached, the value of
`args.update` afterwards, and whether the GitHub-failure warning was
shown. -/
structure AutoUpdateOutcome where
  install_called : Bool
  args_update : Bool
  warned : Bool
deriving DecidableEq, Repr

/-- `Application.auto_update` (app.py 289-310): `firstCheckFailed`
models an exception from the initial check-only `update_packages`
call (warned about only when `--update` was supplied);
`updateAvailable` is `package_manager.update_available()` queried
after that call; the installing call is reached only when an update is
available, auto-update is configured or forced, and no game launch is
in flight; `args.update` is cleared right after the installing call. -/
def auto_update (firstCheckFailed argsUpdate updateAvailable
    autoUpdateCfg launching_game : Bool) : AutoUpdateOutcome :=
  let warned := firstCheckFailed && argsUpdate
  if updateAvailable = false then ⟨false, argsUpdate, warned⟩
  else if (autoUpdateCfg || argsUpdate) = false then ⟨false, argsUpdate, warned⟩
  else if launching_game then ⟨false, argsUpdate, warned⟩
  else ⟨true, false, warned⟩

/-- C10: `auto_update` never reaches the installing call while a
launch is in flight, or when no update is available, or when neither
the auto-update setting nor the force-update argument is set; the
installing call is reached exactly in the remaining case, and
`args.update` is cleared precisely by a cycle that reaches it. -/
theorem auto_update_spec (f a u c l : Bool) :
    (l = true → (auto_update f a u c l).install_called = false)
    ∧ (u = false → (auto_update f a u c l).install_called = false)
    ∧ (c = false ∧ a = false → (auto_update f a u c l).install_called = false)
    ∧ ((auto_update f a u c l).install_called = true ↔
        u = true ∧ (c || a) = true ∧ l = false)
    ∧ ((auto_update f a u c l).install_called = true →
        (auto_update f a u c l).args_update = false)
    ∧ ((auto_update f a u c l).install_called = false →
        (auto_update f a u c l).args_update = a) := by
  rcases f <;> rcases a <;> rcases u <;> rcases c <;> rcases l <;> decide

theorem auto_update_spec_witness :
    (auto_update false true true true true).install_called = false :=
  (auto_update_spec false true true true true).1 rfl

end XXMI
